import Mathlib

/-!
Shallow embedding of the persistence layer of the cli-gpt repository.

The embedding models the SQL persistence layer (persistence/sql.go together
with the user-store implementation) over three relations mirroring the sqlite
schema the code migrates: users, chat_sessions and chat_session_exchanges.
The sqlite database is opened with foreign keys enabled, so the embedding
enforces the declared constraints: users.name carries a unique index,
users.active_session_id references chat_sessions.id ON DELETE SET NULL,
chat_sessions.user_id references users.id ON DELETE CASCADE, and
chat_session_exchanges.session_id references chat_sessions.id
ON DELETE CASCADE.

GORM conventions encoded here:
- struct-based Where conditions skip zero-valued (empty-string) fields;
- Model(&row).Updates(...) filters by the row primary key;
- a Delete or Update whose condition set is empty is refused with a
  missing-where-clause error;
- First(...) chained after a mutation re-reads the row into the handle cache,
  and a failed transaction step rolls back, leaving the database unchanged.

Go time.Time values are modelled as integers, float32 values as rationals.
-/

/-- Time instants (Go time.Time), modelled as integers. -/
abbrev Timepoint := Int

/-- ChatSessionState chat session state variable (session-open / session-close). -/
inductive ChatSessionState where
  | sessionOpen
  | sessionClose
deriving DecidableEq, Repr

/-- DefaultChatMaxResponseTokens default max token count for chat session response. -/
def DefaultChatMaxResponseTokens : Int := 2048

/-- ChatSessionParameters common API request parameters used for one chat session.
Optional float32 fields are modelled as Option Rat, the stop sequences as a list. -/
structure ChatSessionParameters where
  Model : String
  Suffix : Option String
  MaxTokens : Int
  Temperature : Option Rat
  TopP : Option Rat
  Stop : List String
  PresencePenalty : Option Rat
  FrequencyPenalty : Option Rat
deriving DecidableEq, Repr

/-- Allowed model identifiers, from the validate tag oneof=turbo davinci curie babbage ada. -/
def chatModelAllowed (m : String) : Bool :=
  m == "turbo" || m == "davinci" || m == "curie" || m == "babbage" || m == "ada"

/-- Validation of the independently nullable parameter fields, from the validate
tags of ChatSessionParameters: temperature in [0,2], top_p in [0,1], at most 4
stop sequences, presence and frequency penalties in [-2,2]; a nil field is skipped. -/
def optionalBoundsValid (p : ChatSessionParameters) : Bool :=
  (match p.Temperature with | none => true | some t => decide (0 ≤ t ∧ t ≤ 2)) &&
  (match p.TopP with | none => true | some t => decide (0 ≤ t ∧ t ≤ 1)) &&
  decide (p.Stop.length ≤ 4) &&
  (match p.PresencePenalty with | none => true | some t => decide (-2 ≤ t ∧ t ≤ 2)) &&
  (match p.FrequencyPenalty with | none => true | some t => decide (-2 ≤ t ∧ t ≤ 2))

/-- Validation of a whole ChatSessionParameters value, mirroring
validator.Struct against the declared validate tags: the model must be one of
the allowed identifiers, max_tokens must lie in [10,4096], and every non-nil
optional field must satisfy its declared bound. -/
def validateChatSessionParameters (p : ChatSessionParameters) : Bool :=
  chatModelAllowed p.Model &&
  decide (10 ≤ p.MaxTokens ∧ p.MaxTokens ≤ 4096) &&
  optionalBoundsValid p

/-- MergeWithNewSettings merge the contents of the new setting into the current
setting: model and max_tokens are overwritten unconditionally, each optional
field only when the incoming value is non-nil (for stop sequences, non-empty). -/
def MergeWithNewSettings (s newSetting : ChatSessionParameters) : ChatSessionParameters :=
  { s with
    Model := newSetting.Model
    Suffix := if newSetting.Suffix.isSome then newSetting.Suffix else s.Suffix
    MaxTokens := newSetting.MaxTokens
    Temperature := if newSetting.Temperature.isSome then newSetting.Temperature else s.Temperature
    TopP := if newSetting.TopP.isSome then newSetting.TopP else s.TopP
    Stop := if newSetting.Stop.length > 0 then newSetting.Stop else s.Stop
    PresencePenalty :=
      if newSetting.PresencePenalty.isSome then newSetting.PresencePenalty else s.PresencePenalty
    FrequencyPenalty :=
      if newSetting.FrequencyPenalty.isSome then newSetting.FrequencyPenalty
      else s.FrequencyPenalty }

/-- ChatExchange defines one exchange during a chat session: a request and its
associated response, with caller-supplied timestamps. -/
structure ChatExchange where
  RequestTimestamp : Timepoint
  Request : String
  ResponseTimestamp : Timepoint
  Response : String
deriving DecidableEq, Repr

/-- Row of the users table: id primary key, unique name, api token, and the
nullable active_session_id back-reference. -/
structure sqlUserEntry where
  ID : String
  Name : String
  APIToken : String
  ActiveSessionID : Option String
deriving DecidableEq, Repr

/-- Row of the chat_sessions table. -/
structure sqlChatSessionEntry where
  ID : String
  State : ChatSessionState
  UserID : String
  Model : String
  CommonSettings : ChatSessionParameters
deriving DecidableEq, Repr

/-- Row of the chat_session_exchanges table. -/
structure sqlChatExchangeEntry where
  ID : String
  SessionID : String
  Request : String
  RequestTimestamp : Timepoint
  Response : String
  ResponseTimestamp : Timepoint
deriving DecidableEq, Repr

/-- The persisted state: the three relations of the sqlite database. -/
structure Database where
  users : List sqlUserEntry
  chat_sessions : List sqlChatSessionEntry
  chat_session_exchanges : List sqlChatExchangeEntry
deriving DecidableEq, Repr

/-- Error kinds surfaced by the store: gorm.ErrRecordNotFound, the sqlite
unique-constraint and foreign-key-constraint failures, the validator error of
ChangeSettings, and gorm.ErrMissingWhereClause. -/
inductive StoreError where
  | errRecordNotFound
  | errUniqueConstraint
  | errForeignKeyConstraint
  | errValidationFailed
  | errMissingWhereClause
deriving DecidableEq, Repr

/-- Matching of one string column against a struct-based GORM Where condition:
a zero-valued (empty) condition field is skipped, otherwise the column must
equal the condition value. -/
def strFieldMatches (cond val : String) : Bool :=
  cond == "" || val == cond

/-- Handle object for one row of the users table, caching the last-read row
(sqlUserHandle in the source). -/
structure sqlUserHandle where
  entry : sqlUserEntry
deriving DecidableEq, Repr

/-- Handle object for one row of the chat_sessions table, caching the
last-read row (sqlChatSessionHandle in the source). -/
structure sqlChatSessionHandle where
  entry : sqlChatSessionEntry
deriving DecidableEq, Repr

/-- GetID query for user ID: returns the cached field without touching storage. -/
def sqlUserHandle.GetID (db : Database) (h : sqlUserHandle) :
    Database × sqlUserHandle × Except StoreError String :=
  (db, h, .ok h.entry.ID)

/-- GetName query for user name: returns the cached field without touching storage. -/
def sqlUserHandle.GetName (db : Database) (h : sqlUserHandle) :
    Database × sqlUserHandle × Except StoreError String :=
  (db, h, .ok h.entry.Name)

/-- GetAPIToken get user API token: returns the cached field without touching storage. -/
def sqlUserHandle.GetAPIToken (db : Database) (h : sqlUserHandle) :
    Database × sqlUserHandle × Except StoreError String :=
  (db, h, .ok h.entry.APIToken)

/-- GetActiveSessionID fetch the user cached active session ID (nullable). -/
def sqlUserHandle.GetActiveSessionID (db : Database) (h : sqlUserHandle) :
    Database × sqlUserHandle × Except StoreError (Option String) :=
  (db, h, .ok h.entry.ActiveSessionID)

/-- Refresh helper syncing the handle with what is stored in persistence:
First(Where(id = cached id)), with the GORM zero-skip rule on the condition. -/
def sqlUserHandle.Refresh (db : Database) (h : sqlUserHandle) :
    Database × sqlUserHandle × Except StoreError Unit :=
  match db.users.find? (fun r => strFieldMatches h.entry.ID r.ID) with
  | some row => (db, { entry := row }, .ok ())
  | none => (db, h, .error .errRecordNotFound)

/-- Helper for the UPDATE issued by SetActiveSessionID: rows whose id equals
the handle primary key get the new active session pointer. -/
def updateActiveTo (userID sessionID : String) (r : sqlUserEntry) : sqlUserEntry :=
  if r.ID == userID then { r with ActiveSessionID := some sessionID } else r

/-- SetActiveSessionID change the user active session ID: a transaction that
updates the row selected by the handle primary key and re-reads it into the
cache.  The update is checked against the foreign key
users.active_session_id references chat_sessions.id, which rejects a session
id with no row in chat_sessions (sqlite, foreign keys on); a failure rolls the
transaction back. -/
def sqlUserHandle.SetActiveSessionID (db : Database) (h : sqlUserHandle) (sessionID : String) :
    Database × sqlUserHandle × Except StoreError Unit :=
  if h.entry.ID == "" then (db, h, .error .errMissingWhereClause)
  else if db.users.any (fun r => r.ID == h.entry.ID) &&
      !(db.chat_sessions.any (fun s => s.ID == sessionID)) then
    (db, h, .error .errForeignKeyConstraint)
  else
    let users1 := db.users.map (updateActiveTo h.entry.ID sessionID)
    match users1.find? (fun r => r.ID == h.entry.ID) with
    | some row => ({ db with users := users1 }, { entry := row }, .ok ())
    | none => (db, h, .error .errRecordNotFound)

/-- ClearActiveSessionID clear the user active session ID: an update of the
row selected by the handle primary key to a null pointer, then a re-read. -/
def sqlUserHandle.ClearActiveSessionID (db : Database) (h : sqlUserHandle) :
    Database × sqlUserHandle × Except StoreError Unit :=
  if h.entry.ID == "" then (db, h, .error .errMissingWhereClause)
  else
    let users1 := db.users.map (fun r =>
      if r.ID == h.entry.ID then { r with ActiveSessionID := none } else r)
    match users1.find? (fun r => r.ID == h.entry.ID) with
    | some row => ({ db with users := users1 }, { entry := row }, .ok ())
    | none => (db, h, .error .errRecordNotFound)

/-- RecordNewUser record a new system user: Create of a fresh row with the
given generated id, the requested name and an empty API token; the primary key
and the unique index on name reject duplicates and roll the insert back. -/
def RecordNewUser (db : Database) (freshID userName : String) :
    Database × Except StoreError sqlUserHandle :=
  if db.users.any (fun r => r.ID == freshID) then (db, .error .errUniqueConstraint)
  else if db.users.any (fun r => r.Name == userName) then (db, .error .errUniqueConstraint)
  else
    let newEntry : sqlUserEntry :=
      { ID := freshID, Name := userName, APIToken := "", ActiveSessionID := none }
    ({ db with users := db.users ++ [newEntry] }, .ok { entry := newEntry })

/-- Helper for the ON DELETE SET NULL action on users.active_session_id: a row
whose pointer targets one of the deleted session ids is cleared. -/
def clearDeletedActive (deletedIDs : List String) (r : sqlUserEntry) : sqlUserEntry :=
  match r.ActiveSessionID with
  | some t => if deletedIDs.contains t then { r with ActiveSessionID := none } else r
  | none => r

/-- DeleteUser delete a user: Delete(Where(id = userID)).  Deleting the user
row cascades to the sessions of that user (chat_sessions.user_id ON DELETE
CASCADE), which in turn cascades to their exchanges and fires ON DELETE SET
NULL on any remaining active_session_id pointing at a deleted session.
Deleting zero rows is not an error. -/
def DeleteUser (db : Database) (userID : String) : Database × Except StoreError Unit :=
  if userID == "" then (db, .error .errMissingWhereClause)
  else
    let removedUser := db.users.any (fun r => r.ID == userID)
    let deletedSessionIDs :=
      if removedUser then (db.chat_sessions.filter (fun s => s.UserID == userID)).map
        (fun s => s.ID)
      else []
    let users1 := (db.users.filter (fun r => !(r.ID == userID))).map
      (clearDeletedActive deletedSessionIDs)
    let sessions1 :=
      if removedUser then db.chat_sessions.filter (fun s => !(s.UserID == userID))
      else db.chat_sessions
    let exchanges1 := db.chat_session_exchanges.filter
      (fun e => !(deletedSessionIDs.contains e.SessionID))
    ({ users := users1, chat_sessions := sessions1, chat_session_exchanges := exchanges1 },
     .ok ())

/-- SessionID this chat session ID: returns the cached field. -/
def sqlChatSessionHandle.SessionID (db : Database) (h : sqlChatSessionHandle) :
    Database × sqlChatSessionHandle × Except StoreError String :=
  (db, h, .ok h.entry.ID)

/-- SessionState the session current state: returns the cached field. -/
def sqlChatSessionHandle.SessionState (db : Database) (h : sqlChatSessionHandle) :
    Database × sqlChatSessionHandle × Except StoreError ChatSessionState :=
  (db, h, .ok h.entry.State)

/-- Settings returns the current session-wide API request parameters from the cache. -/
def sqlChatSessionHandle.Settings (db : Database) (h : sqlChatSessionHandle) :
    Database × sqlChatSessionHandle × Except StoreError ChatSessionParameters :=
  (db, h, .ok h.entry.CommonSettings)

/-- ChangeSettings update the session-wide API request parameters: the new
settings are validated first and rejected wholesale on a violation; on success
a transaction updates the row selected by the handle primary key and re-reads
it into the cache. -/
def sqlChatSessionHandle.ChangeSettings (db : Database) (h : sqlChatSessionHandle)
    (newSettings : ChatSessionParameters) :
    Database × sqlChatSessionHandle × Except StoreError Unit :=
  if !(validateChatSessionParameters newSettings) then (db, h, .error .errValidationFailed)
  else if h.entry.ID == "" then (db, h, .error .errMissingWhereClause)
  else
    let sessions1 := db.chat_sessions.map (fun s =>
      if s.ID == h.entry.ID then { s with CommonSettings := newSettings } else s)
    match sessions1.find? (fun s => s.ID == h.entry.ID) with
    | some row => ({ db with chat_sessions := sessions1 }, { entry := row }, .ok ())
    | none => (db, h, .error .errRecordNotFound)

/-- RecordOneExchange record a single exchange: Create of a fresh row carrying
the generated id, the session id of the handle, and the caller-supplied fields
unmodified; only the primary key and the session foreign key are checked. -/
def sqlChatSessionHandle.RecordOneExchange (db : Database) (h : sqlChatSessionHandle)
    (freshID : String) (exchange : ChatExchange) :
    Database × sqlChatSessionHandle × Except StoreError Unit :=
  let newEntry : sqlChatExchangeEntry :=
    { ID := freshID, SessionID := h.entry.ID, Request := exchange.Request,
      RequestTimestamp := exchange.RequestTimestamp, Response := exchange.Response,
      ResponseTimestamp := exchange.ResponseTimestamp }
  if db.chat_session_exchanges.any (fun e => e.ID == freshID) then
    (db, h, .error .errUniqueConstraint)
  else if !(db.chat_sessions.any (fun s => s.ID == h.entry.ID)) then
    (db, h, .error .errForeignKeyConstraint)
  else
    ({ db with chat_session_exchanges := db.chat_session_exchanges ++ [newEntry] }, h, .ok ())

/-- Ordering used by the exchange queries: ascending request timestamp. -/
def exchangeOrder (a b : sqlChatExchangeEntry) : Prop :=
  a.RequestTimestamp ≤ b.RequestTimestamp

instance : DecidableRel exchangeOrder :=
  fun a b => inferInstanceAs (Decidable (a.RequestTimestamp ≤ b.RequestTimestamp))

instance : IsTotal sqlChatExchangeEntry exchangeOrder :=
  ⟨fun a b => Int.le_total a.RequestTimestamp b.RequestTimestamp⟩

instance : IsTrans sqlChatExchangeEntry exchangeOrder :=
  ⟨fun _ _ _ hab hbc => le_trans hab hbc⟩

/-- Projection of a stored exchange row to the ChatExchange value returned to callers. -/
def projectExchange (e : sqlChatExchangeEntry) : ChatExchange :=
  { RequestTimestamp := e.RequestTimestamp, Request := e.Request,
    ResponseTimestamp := e.ResponseTimestamp, Response := e.Response }

/-- Rows of chat_session_exchanges selected by Where(session_id = sessionID). -/
def sessionExchangeRows (db : Database) (sessionID : String) : List sqlChatExchangeEntry :=
  db.chat_session_exchanges.filter (fun e => strFieldMatches sessionID e.SessionID)

/-- FirstExchange get the first session exchange:
First(Where(session_id).Order(request_timestamp)), ErrRecordNotFound when the
session has no exchanges. -/
def sqlChatSessionHandle.FirstExchange (db : Database) (h : sqlChatSessionHandle) :
    Database × sqlChatSessionHandle × Except StoreError ChatExchange :=
  match List.insertionSort exchangeOrder (sessionExchangeRows db h.entry.ID) with
  | [] => (db, h, .error .errRecordNotFound)
  | e :: _ => (db, h, .ok (projectExchange e))

/-- Exchanges fetch the list of exchanges recorded in this session:
Find(Where(session_id).Order(request_timestamp)), in chronological order. -/
def sqlChatSessionHandle.Exchanges (db : Database) (h : sqlChatSessionHandle) :
    Database × sqlChatSessionHandle × Except StoreError (List ChatExchange) :=
  (db, h,
   .ok ((List.insertionSort exchangeOrder (sessionExchangeRows db h.entry.ID)).map
     projectExchange))

/-- NewSession define a new chat session for the user of the chat store: a new
row with the generated id, state open, the cached user id as owner, the given
model, and default settings carrying only the default max token count. -/
def NewSession (db : Database) (u : sqlUserHandle) (freshID model : String) :
    Database × Except StoreError sqlChatSessionHandle :=
  let newEntry : sqlChatSessionEntry :=
    { ID := freshID, State := .sessionOpen, UserID := u.entry.ID, Model := model,
      CommonSettings :=
        { Model := "", Suffix := none, MaxTokens := DefaultChatMaxResponseTokens,
          Temperature := none, TopP := none, Stop := [], PresencePenalty := none,
          FrequencyPenalty := none } }
  if db.chat_sessions.any (fun s => s.ID == freshID) then (db, .error .errUniqueConstraint)
  else if !(db.users.any (fun r => r.ID == u.entry.ID)) then
    (db, .error .errForeignKeyConstraint)
  else ({ db with chat_sessions := db.chat_sessions ++ [newEntry] }, .ok { entry := newEntry })

/-- ListSessions list all sessions of the chat store: Find(Where(user_id =
cached user id)), wrapped into handle objects. -/
def ListSessions (db : Database) (u : sqlUserHandle) :
    Database × Except StoreError (List sqlChatSessionHandle) :=
  (db, .ok ((db.chat_sessions.filter (fun s => strFieldMatches u.entry.ID s.UserID)).map
    (fun e => { entry := e })))

/-- GetSession fetch a session: First(Where(user_id = cached user id, id =
sessionID)); ErrRecordNotFound when no such row exists for this user. -/
def GetSession (db : Database) (u : sqlUserHandle) (sessionID : String) :
    Database × Except StoreError sqlChatSessionHandle :=
  match db.chat_sessions.find? (fun s =>
      strFieldMatches u.entry.ID s.UserID && strFieldMatches sessionID s.ID) with
  | some e => (db, .ok { entry := e })
  | none => (db, .error .errRecordNotFound)

/-- SetActiveSession set the current active chat session for the user of the
chat store: reads the session id from the handle cache and delegates to
SetActiveSessionID of the user handle. -/
def SetActiveSession (db : Database) (u : sqlUserHandle) (session : sqlChatSessionHandle) :
    Database × sqlUserHandle × Except StoreError Unit :=
  sqlUserHandle.SetActiveSessionID db u session.entry.ID

/-- Condition of the DELETE issued by DeleteSession: a session row matching
the struct-based Where on owner user id and session id. -/
def sessionDeleteCond (userID sessionID : String) (s : sqlChatSessionEntry) : Bool :=
  strFieldMatches userID s.UserID && strFieldMatches sessionID s.ID

/-- Ids of the session rows matched by the DELETE condition of DeleteSession. -/
def sessionIDsDeletedBy (db : Database) (userID sessionID : String) : List String :=
  (db.chat_sessions.filter (sessionDeleteCond userID sessionID)).map (fun s => s.ID)

/-- State of the database after the DELETE of DeleteSession committed: matched
session rows removed, their exchanges cascaded away, dangling
active_session_id pointers set to null. -/
def afterSessionDelete (db : Database) (userID sessionID : String) : Database :=
  { users := db.users.map (clearDeletedActive (sessionIDsDeletedBy db userID sessionID)),
    chat_sessions := db.chat_sessions.filter
      (fun s => !(sessionDeleteCond userID sessionID s)),
    chat_session_exchanges := db.chat_session_exchanges.filter
      (fun e => !((sessionIDsDeletedBy db userID sessionID).contains e.SessionID)) }

/-- DeleteSession delete a session: Delete(Where(user_id = cached user id,
id = sessionID)), cascading to the exchanges of the deleted sessions and
firing ON DELETE SET NULL on active_session_id pointers at them; afterwards
the user handle of the store is refreshed from storage, clearing a cached
pointer at the deleted session. -/
def DeleteSession (db : Database) (u : sqlUserHandle) (sessionID : String) :
    Database × sqlUserHandle × Except StoreError Unit :=
  if u.entry.ID == "" && sessionID == "" then (db, u, .error .errMissingWhereClause)
  else sqlUserHandle.Refresh (afterSessionDelete db u.entry.ID sessionID) u

/-- Helper: find? commutes with mapping a function that preserves the predicate. -/
theorem find?_map_pres {α : Type} (f : α → α) (p : α → Bool)
    (hf : ∀ x, p (f x) = p x) :
    ∀ l : List α, (l.map f).find? p = (l.find? p).map f
  | [] => rfl
  | x :: xs => by
    cases hpx : p x with
    | true =>
      rw [List.map_cons, List.find?_cons_of_pos _ (by rw [hf x]; exact hpx),
        List.find?_cons_of_pos _ hpx]
      rfl
    | false =>
      rw [List.map_cons, List.find?_cons_of_neg _ (by rw [hf x, hpx]; exact Bool.false_ne_true),
        List.find?_cons_of_neg _ (by rw [hpx]; exact Bool.false_ne_true)]
      exact find?_map_pres f p hf xs

/-- Helper: find? only depends on the pointwise behaviour of the predicate. -/
theorem find?_pred_ext {α : Type} (p q : α → Bool) (h : ∀ x, p x = q x) (l : List α) :
    l.find? p = l.find? q := by
  have hpq : p = q := funext h
  rw [hpq]

/-- Helper: the map in updateActiveTo preserves the primary-key predicate. -/
theorem updateActiveTo_pres_id (userID sessionID : String) (x : sqlUserEntry) :
    ((updateActiveTo userID sessionID x).ID == userID) = (x.ID == userID) := by
  unfold updateActiveTo
  split <;> rfl

/-- Helper: clearDeletedActive preserves the primary key of a user row. -/
theorem clearDeletedActive_id (deletedIDs : List String) (x : sqlUserEntry) :
    (clearDeletedActive deletedIDs x).ID = x.ID := by
  unfold clearDeletedActive
  cases x.ActiveSessionID <;> simp only []
  split <;> rfl

/-- Helper: a run of SetActiveSessionID with a nonempty cached user id, a user
row present in storage and an existing target session id succeeds: it commits
the pointer update and refreshes the handle cache from the updated row. -/
theorem setActiveSessionID_success (db : Database) (u : sqlUserHandle) (sid : String)
    (hne : u.entry.ID ≠ "")
    (hu : ∃ r ∈ db.users, r.ID = u.entry.ID)
    (hs : ∃ s ∈ db.chat_sessions, s.ID = sid) :
    ∃ r0, db.users.find? (fun r => r.ID == u.entry.ID) = some r0 ∧ r0.ID = u.entry.ID ∧
      sqlUserHandle.SetActiveSessionID db u sid =
        ({ db with users := db.users.map (updateActiveTo u.entry.ID sid) },
         { entry := { r0 with ActiveSessionID := some sid } }, .ok ()) := by
  have hbne : (u.entry.ID == "") = false := beq_eq_false_iff_ne.mpr hne
  obtain ⟨s0, hs0mem, hs0id⟩ := hs
  have hsess : db.chat_sessions.any (fun s => s.ID == sid) = true :=
    List.any_eq_true.mpr ⟨s0, hs0mem, beq_iff_eq.mpr hs0id⟩
  obtain ⟨r, hrmem, hrid⟩ := hu
  have hsome : (db.users.find? (fun r => r.ID == u.entry.ID)).isSome := by
    rw [List.find?_isSome]
    exact ⟨r, hrmem, beq_iff_eq.mpr hrid⟩
  obtain ⟨r0, hr0⟩ := Option.isSome_iff_exists.mp hsome
  have hp0 : (r0.ID == u.entry.ID) = true := by
    have hfs := List.find?_some hr0
    simpa using hfs
  refine ⟨r0, hr0, beq_iff_eq.mp hp0, ?_⟩
  have hmap : (db.users.map (updateActiveTo u.entry.ID sid)).find?
      (fun r => r.ID == u.entry.ID) = some (updateActiveTo u.entry.ID sid r0) := by
    rw [find?_map_pres _ _ (updateActiveTo_pres_id u.entry.ID sid), hr0]
    rfl
  have hupd : updateActiveTo u.entry.ID sid r0 = { r0 with ActiveSessionID := some sid } := by
    unfold updateActiveTo
    rw [hp0]
    simp only [if_true]
  rw [hupd] at hmap
  simp only [sqlUserHandle.SetActiveSessionID, hbne, hsess, Bool.not_true, Bool.and_false,
    Bool.false_eq_true, if_false, hmap]

/-- Helper: a run of DeleteSession with a nonempty cached user id whose user
row is found in the post-delete state commits the cascade and refreshes the
store user handle from the post-delete row. -/
theorem deleteSession_run (db : Database) (u : sqlUserHandle) (sid : String)
    (hne : u.entry.ID ≠ "")
    (r0 : sqlUserEntry) (hr0 : db.users.find? (fun r => r.ID == u.entry.ID) = some r0) :
    DeleteSession db u sid =
      (afterSessionDelete db u.entry.ID sid,
       { entry := clearDeletedActive (sessionIDsDeletedBy db u.entry.ID sid) r0 }, .ok ()) := by
  have hbne : (u.entry.ID == "") = false := beq_eq_false_iff_ne.mpr hne
  have hpe : ∀ x : sqlUserEntry, strFieldMatches u.entry.ID x.ID = (x.ID == u.entry.ID) := by
    intro x
    unfold strFieldMatches
    rw [hbne, Bool.false_or]
  have hgp : ∀ x : sqlUserEntry,
      ((clearDeletedActive (sessionIDsDeletedBy db u.entry.ID sid) x).ID == u.entry.ID)
        = (x.ID == u.entry.ID) := by
    intro x
    rw [clearDeletedActive_id]
  have hfind : (afterSessionDelete db u.entry.ID sid).users.find?
      (fun r => strFieldMatches u.entry.ID r.ID)
      = some (clearDeletedActive (sessionIDsDeletedBy db u.entry.ID sid) r0) := by
    show (db.users.map (clearDeletedActive (sessionIDsDeletedBy db u.entry.ID sid))).find?
      (fun r => strFieldMatches u.entry.ID r.ID) = _
    rw [find?_pred_ext _ (fun r => r.ID == u.entry.ID) hpe, find?_map_pres _ _ hgp, hr0]
    rfl
  simp only [DeleteSession, hbne, Bool.false_and, Bool.false_eq_true, if_false,
    sqlUserHandle.Refresh, hfind]

/-- C1: for every user handle whose row exists in storage and every session s
of that user, making s the active session via SetActiveSessionID (to which
SetActiveSession delegates with the cached session id) and then deleting it
through the chat store of that user succeeds, and GetActiveSessionID on the
refreshed user handle afterwards returns null. -/
theorem deleteSession_clears_active_pointer
    (db : Database) (u : sqlUserHandle) (s : sqlChatSessionEntry)
    (hne : u.entry.ID ≠ "")
    (hu : ∃ r ∈ db.users, r.ID = u.entry.ID)
    (hs : s ∈ db.chat_sessions) (hown : s.UserID = u.entry.ID) :
    SetActiveSession db u { entry := s } = sqlUserHandle.SetActiveSessionID db u s.ID ∧
    ∃ db1 u1 db2 u2,
      sqlUserHandle.SetActiveSessionID db u s.ID = (db1, u1, .ok ()) ∧
      DeleteSession db1 u1 s.ID = (db2, u2, .ok ()) ∧
      sqlUserHandle.GetActiveSessionID db2 u2 = (db2, u2, .ok none) := by
  refine ⟨rfl, ?_⟩
  obtain ⟨r0, hr0, hr0id, hset⟩ := setActiveSessionID_success db u s.ID hne hu ⟨s, hs, rfl⟩
  have hne1 : ({ entry := { r0 with ActiveSessionID := some s.ID } } : sqlUserHandle).entry.ID
      ≠ "" := by
    show r0.ID ≠ ""
    rw [hr0id]
    exact hne
  have hfind1 : ({ db with users := db.users.map (updateActiveTo u.entry.ID s.ID) }
        : Database).users.find?
      (fun r => r.ID ==
        ({ entry := { r0 with ActiveSessionID := some s.ID } } : sqlUserHandle).entry.ID)
      = some (updateActiveTo u.entry.ID s.ID r0) := by
    show (db.users.map (updateActiveTo u.entry.ID s.ID)).find? (fun r => r.ID == r0.ID) = _
    rw [find?_pred_ext _ (fun r => r.ID == u.entry.ID) (fun x => by rw [hr0id]),
      find?_map_pres _ _ (updateActiveTo_pres_id u.entry.ID s.ID), hr0]
    rfl
  have hdel := deleteSession_run _ _ s.ID hne1 _ hfind1
  have hcond : sessionDeleteCond r0.ID s.ID s = true := by
    unfold sessionDeleteCond strFieldMatches
    rw [hr0id, beq_iff_eq.mpr hown]
    simp
  have hmem : (sessionIDsDeletedBy
      ({ db with users := db.users.map (updateActiveTo u.entry.ID s.ID) } : Database)
      ({ entry := { r0 with ActiveSessionID := some s.ID } } : sqlUserHandle).entry.ID
      s.ID).contains s.ID = true := by
    apply List.elem_iff.mpr
    exact List.mem_map.mpr ⟨s, List.mem_filter.mpr ⟨hs, hcond⟩, rfl⟩
  have hclear : clearDeletedActive
      (sessionIDsDeletedBy
        ({ db with users := db.users.map (updateActiveTo u.entry.ID s.ID) } : Database)
        ({ entry := { r0 with ActiveSessionID := some s.ID } } : sqlUserHandle).entry.ID s.ID)
      (updateActiveTo u.entry.ID s.ID r0)
      = { r0 with ActiveSessionID := none } := by
    have hupd : updateActiveTo u.entry.ID s.ID r0 = { r0 with ActiveSessionID := some s.ID } := by
      unfold updateActiveTo
      rw [beq_iff_eq.mpr hr0id]
      simp only [if_true]
    rw [hupd]
    unfold clearDeletedActive
    simp only [hmem, if_true]
  rw [hclear] at hdel
  exact ⟨_, _, _, _, hset, hdel, rfl⟩

/-- Sample default parameter value as created by NewSession. -/
def defaultSessionParams : ChatSessionParameters :=
  { Model := "", Suffix := none, MaxTokens := DefaultChatMaxResponseTokens,
    Temperature := none, TopP := none, Stop := [], PresencePenalty := none,
    FrequencyPenalty := none }

/-- Sample user row for concrete runs. -/
def userARow : sqlUserEntry :=
  { ID := "user-a", Name := "alice", APIToken := "", ActiveSessionID := none }

/-- Sample second user row for concrete runs. -/
def userBRow : sqlUserEntry :=
  { ID := "user-b", Name := "bob", APIToken := "", ActiveSessionID := none }

/-- Sample session row owned by the first sample user. -/
def sessARow : sqlChatSessionEntry :=
  { ID := "sess-a", State := .sessionOpen, UserID := "user-a", Model := "turbo",
    CommonSettings := defaultSessionParams }

/-- Sample session row owned by the second sample user. -/
def sessBRow : sqlChatSessionEntry :=
  { ID := "sess-b", State := .sessionOpen, UserID := "user-b", Model := "turbo",
    CommonSettings := defaultSessionParams }

/-- Sample database with two users owning one session each. -/
def dbTwoUsers : Database :=
  { users := [userARow, userBRow], chat_sessions := [sessARow, sessBRow],
    chat_session_exchanges := [] }

/-- Handle of the first sample user. -/
def handleUserA : sqlUserHandle := { entry := userARow }

/-- Witness for C1: the concrete two-user database, with the first user
activating and then deleting the session it owns. -/
theorem deleteSession_clears_active_pointer_witness :
    ∃ db1 u1 db2 u2,
      sqlUserHandle.SetActiveSessionID dbTwoUsers handleUserA sessARow.ID = (db1, u1, .ok ()) ∧
      DeleteSession db1 u1 sessARow.ID = (db2, u2, .ok ()) ∧
      sqlUserHandle.GetActiveSessionID db2 u2 = (db2, u2, .ok none) :=
  (deleteSession_clears_active_pointer dbTwoUsers handleUserA sessARow
    (by decide) (by decide) (by decide) (by decide)).2

/-- Counterexample for C2: through the first sample user handle,
SetActiveSessionID with the id of a session owned by the second user does not
fail; it succeeds and changes the active-session pointer. -/
theorem setActiveSessionID_cross_user_accepted :
    sessBRow.UserID ≠ handleUserA.entry.ID ∧
    (sqlUserHandle.SetActiveSessionID dbTwoUsers handleUserA sessBRow.ID).2.2 = .ok () ∧
    (sqlUserHandle.SetActiveSessionID dbTwoUsers handleUserA
      sessBRow.ID).2.1.entry.ActiveSessionID = some "sess-b" :=
  ⟨by decide, rfl, rfl⟩

/-- C2 amended: SetActiveSessionID rejects an id with no chat session row,
with the foreign-key error and both the database and the handle unchanged;
an id of any existing session is accepted, even a session owned by a
different user, and the pointer is set to it. -/
theorem setActiveSessionID_checks_existence_only
    (db : Database) (u : sqlUserHandle) (sid : String)
    (hne : u.entry.ID ≠ "") (hu : ∃ r ∈ db.users, r.ID = u.entry.ID) :
    ((∀ s ∈ db.chat_sessions, s.ID ≠ sid) →
      sqlUserHandle.SetActiveSessionID db u sid = (db, u, .error .errForeignKeyConstraint)) ∧
    ((∃ s ∈ db.chat_sessions, s.ID = sid) →
      ∃ db1 u1, sqlUserHandle.SetActiveSessionID db u sid = (db1, u1, .ok ()) ∧
        u1.entry.ActiveSessionID = some sid) := by
  constructor
  · intro hnone
    have hbne : (u.entry.ID == "") = false := beq_eq_false_iff_ne.mpr hne
    obtain ⟨r, hrmem, hrid⟩ := hu
    have hanyu : db.users.any (fun r => r.ID == u.entry.ID) = true :=
      List.any_eq_true.mpr ⟨r, hrmem, beq_iff_eq.mpr hrid⟩
    have hanys : db.chat_sessions.any (fun s => s.ID == sid) = false := by
      rw [Bool.eq_false_iff]
      intro hx
      obtain ⟨s0, hs0mem, hs0⟩ := List.any_eq_true.mp hx
      exact hnone s0 hs0mem (beq_iff_eq.mp hs0)
    simp only [sqlUserHandle.SetActiveSessionID, hbne, Bool.false_eq_true, if_false, hanyu,
      hanys, Bool.not_false, Bool.and_true, if_true]
  · intro hsome
    obtain ⟨r0, -, -, hset⟩ := setActiveSessionID_success db u sid hne hu hsome
    exact ⟨_, _, hset, rfl⟩

/-- Witness for the amended C2: on the two-user database, an unknown id is
rejected with the database unchanged, and an existing id is accepted. -/
theorem setActiveSessionID_checks_existence_only_witness :
    sqlUserHandle.SetActiveSessionID dbTwoUsers handleUserA "no-such-session"
      = (dbTwoUsers, handleUserA, .error .errForeignKeyConstraint) ∧
    (∃ db1 u1, sqlUserHandle.SetActiveSessionID dbTwoUsers handleUserA "sess-a"
        = (db1, u1, .ok ()) ∧ u1.entry.ActiveSessionID = some "sess-a") := by
  have h1 := setActiveSessionID_checks_existence_only dbTwoUsers handleUserA "no-such-session"
    (by decide) (by decide)
  have h2 := setActiveSessionID_checks_existence_only dbTwoUsers handleUserA "sess-a"
    (by decide) (by decide)
  exact ⟨h1.1 (by decide), h2.2 (by decide)⟩

/-- C3: ChangeSettings with a parameter set in which some non-nil optional
field violates its declared bound returns the validation error and leaves the
database (hence the stored settings) and the handle cache unchanged. -/
theorem changeSettings_invalid_not_applied (db : Database) (h : sqlChatSessionHandle)
    (newSettings : ChatSessionParameters)
    (hbad : optionalBoundsValid newSettings = false) :
    sqlChatSessionHandle.ChangeSettings db h newSettings
      = (db, h, .error .errValidationFailed) := by
  have hval : validateChatSessionParameters newSettings = false := by
    unfold validateChatSessionParameters
    rw [hbad, Bool.and_false]
  simp only [sqlChatSessionHandle.ChangeSettings, hval, Bool.not_false, if_true]

/-- Parameter set with frequency penalty 2.3, outside the declared [-2,2]. -/
def outOfBoundFreqPenalty : ChatSessionParameters :=
  { Model := "turbo", Suffix := none, MaxTokens := 1024, Temperature := none, TopP := none,
    Stop := [], PresencePenalty := none, FrequencyPenalty := some (23 / 10 : Rat) }

/-- Handle of the first sample session. -/
def handleSessA : sqlChatSessionHandle := { entry := sessARow }

/-- Witness for C3: frequency penalty 2.3 is rejected and nothing changes. -/
theorem changeSettings_invalid_witness :
    sqlChatSessionHandle.ChangeSettings dbTwoUsers handleSessA outOfBoundFreqPenalty
      = (dbTwoUsers, handleSessA, .error .errValidationFailed) :=
  changeSettings_invalid_not_applied dbTwoUsers handleSessA outOfBoundFreqPenalty (by
    have hng : ¬ ((-2 : Rat) ≤ 23 / 10 ∧ (23 / 10 : Rat) ≤ 2) := by norm_num
    simp [optionalBoundsValid, outOfBoundFreqPenalty, decide_eq_false hng])

/-- C4: the merge rule overwrites the model and max-token fields
unconditionally, overwrites each optional field only when the incoming value
is present (for the stop sequences, non-empty), and leaves an optional field
with an absent incoming value untouched. -/
theorem mergeWithNewSettings_rule (s n : ChatSessionParameters) :
    (MergeWithNewSettings s n).Model = n.Model ∧
    (MergeWithNewSettings s n).MaxTokens = n.MaxTokens ∧
    (∀ v, n.Suffix = some v → (MergeWithNewSettings s n).Suffix = some v) ∧
    (n.Suffix = none → (MergeWithNewSettings s n).Suffix = s.Suffix) ∧
    (∀ v, n.Temperature = some v → (MergeWithNewSettings s n).Temperature = some v) ∧
    (n.Temperature = none → (MergeWithNewSettings s n).Temperature = s.Temperature) ∧
    (∀ v, n.TopP = some v → (MergeWithNewSettings s n).TopP = some v) ∧
    (n.TopP = none → (MergeWithNewSettings s n).TopP = s.TopP) ∧
    (n.Stop ≠ [] → (MergeWithNewSettings s n).Stop = n.Stop) ∧
    (n.Stop = [] → (MergeWithNewSettings s n).Stop = s.Stop) ∧
    (∀ v, n.PresencePenalty = some v → (MergeWithNewSettings s n).PresencePenalty = some v) ∧
    (n.PresencePenalty = none → (MergeWithNewSettings s n).PresencePenalty = s.PresencePenalty) ∧
    (∀ v, n.FrequencyPenalty = some v → (MergeWithNewSettings s n).FrequencyPenalty = some v) ∧
    (n.FrequencyPenalty = none →
      (MergeWithNewSettings s n).FrequencyPenalty = s.FrequencyPenalty) := by
  refine ⟨rfl, rfl, ?_, ?_, ?_, ?_, ?_, ?_, ?_, ?_, ?_, ?_, ?_, ?_⟩
  · intro v hv
    simp [MergeWithNewSettings, hv]
  · intro hv
    simp [MergeWithNewSettings, hv]
  · intro v hv
    simp [MergeWithNewSettings, hv]
  · intro hv
    simp [MergeWithNewSettings, hv]
  · intro v hv
    simp [MergeWithNewSettings, hv]
  · intro hv
    simp [MergeWithNewSettings, hv]
  · intro hv
    simp [MergeWithNewSettings, List.length_pos.mpr hv]
  · intro hv
    simp [MergeWithNewSettings, hv]
  · intro v hv
    simp [MergeWithNewSettings, hv]
  · intro hv
    simp [MergeWithNewSettings, hv]
  · intro v hv
    simp [MergeWithNewSettings, hv]
  · intro hv
    simp [MergeWithNewSettings, hv]

/-- DefaultChatRequestTemperature default chat request temperature. -/
def DefaultChatRequestTemperature : Rat := 1

/-- DefaultChatRequestTopP default chat request TopP. -/
def DefaultChatRequestTopP : Rat := 0

/-- GetDefaultChatSessionParams generate default chat session request params. -/
def GetDefaultChatSessionParams (model : String) : ChatSessionParameters :=
  { Model := model, Suffix := none, MaxTokens := DefaultChatMaxResponseTokens,
    Temperature := some DefaultChatRequestTemperature, TopP := some DefaultChatRequestTopP,
    Stop := [], PresencePenalty := none, FrequencyPenalty := none }

/-- Incoming setting of the documented merge example: max tokens 551 and
temperature 0.398, every other optional field absent. -/
def mergeIncoming : ChatSessionParameters :=
  { Model := "turbo", Suffix := none, MaxTokens := 551,
    Temperature := some (199 / 500 : Rat), TopP := none, Stop := [],
    PresencePenalty := none, FrequencyPenalty := none }

/-- Witness for C4: merging the example onto defaults takes the new max
tokens and temperature and leaves top_p and suffix untouched. -/
theorem mergeWithNewSettings_rule_witness :
    (MergeWithNewSettings (GetDefaultChatSessionParams "turbo") mergeIncoming).MaxTokens = 551 ∧
    (MergeWithNewSettings (GetDefaultChatSessionParams "turbo") mergeIncoming).Temperature
      = some (199 / 500 : Rat) ∧
    (MergeWithNewSettings (GetDefaultChatSessionParams "turbo") mergeIncoming).TopP
      = (GetDefaultChatSessionParams "turbo").TopP ∧
    (MergeWithNewSettings (GetDefaultChatSessionParams "turbo") mergeIncoming).Suffix
      = (GetDefaultChatSessionParams "turbo").Suffix := by
  have h := mergeWithNewSettings_rule (GetDefaultChatSessionParams "turbo") mergeIncoming
  exact ⟨h.2.1, h.2.2.2.2.1 _ rfl, h.2.2.2.2.2.2.2.1 rfl, h.2.2.2.1 rfl⟩

/-- C5: Exchanges returns exactly the exchanges of the session, sorted by
ascending request timestamp regardless of insertion order; FirstExchange
returns an exchange of the session with minimal request timestamp, and the
record-not-found error when the session has none. -/
theorem exchanges_sorted_by_request_timestamp (db : Database) (h : sqlChatSessionHandle) :
    ∃ l, (sqlChatSessionHandle.Exchanges db h).2.2 = .ok l ∧
      l.Sorted (fun a b => a.RequestTimestamp ≤ b.RequestTimestamp) ∧
      l.Perm ((sessionExchangeRows db h.entry.ID).map projectExchange) ∧
      (sessionExchangeRows db h.entry.ID = [] →
        (sqlChatSessionHandle.FirstExchange db h).2.2 = .error .errRecordNotFound) ∧
      (sessionExchangeRows db h.entry.ID ≠ [] →
        ∃ e, (sqlChatSessionHandle.FirstExchange db h).2.2 = .ok e ∧
          e ∈ (sessionExchangeRows db h.entry.ID).map projectExchange ∧
          ∀ r ∈ sessionExchangeRows db h.entry.ID,
            e.RequestTimestamp ≤ r.RequestTimestamp) := by
  refine ⟨_, rfl, ?_, ?_, ?_, ?_⟩
  · have hs := List.sorted_insertionSort exchangeOrder (sessionExchangeRows db h.entry.ID)
    exact List.Pairwise.map projectExchange (fun a b hab => hab) hs
  · exact (List.perm_insertionSort exchangeOrder (sessionExchangeRows db h.entry.ID)).map
      projectExchange
  · intro hnil
    simp only [sqlChatSessionHandle.FirstExchange, hnil]
    rfl
  · intro hnonempty
    have hperm := List.perm_insertionSort exchangeOrder (sessionExchangeRows db h.entry.ID)
    have hsorted := List.sorted_insertionSort exchangeOrder (sessionExchangeRows db h.entry.ID)
    cases hsort : List.insertionSort exchangeOrder (sessionExchangeRows db h.entry.ID) with
    | nil =>
      exfalso
      rw [hsort] at hperm
      exact hnonempty (hperm.symm.eq_nil)
    | cons e rest =>
      rw [hsort] at hperm hsorted
      refine ⟨projectExchange e, ?_, ?_, ?_⟩
      · simp only [sqlChatSessionHandle.FirstExchange, hsort]
      · exact List.mem_map_of_mem projectExchange (hperm.subset (List.mem_cons_self e rest))
      · intro r hr
        have hrs : r ∈ e :: rest := hperm.symm.subset hr
        rcases List.mem_cons.mp hrs with h1 | h2
        · rw [h1]
          exact le_refl _
        · exact List.rel_of_sorted_cons hsorted r h2

/-- Exchange with the later request timestamp, recorded first. -/
def exchLater : ChatExchange :=
  { RequestTimestamp := 2, Request := "second request", ResponseTimestamp := 3,
    Response := "second response" }

/-- Exchange with the earlier request timestamp, recorded second. -/
def exchEarlier : ChatExchange :=
  { RequestTimestamp := 1, Request := "first request", ResponseTimestamp := 2,
    Response := "first response" }

/-- Database obtained by recording the later-timestamped exchange first and
the earlier-timestamped exchange second in the first sample session. -/
def dbOutOfOrder : Database :=
  (sqlChatSessionHandle.RecordOneExchange
    (sqlChatSessionHandle.RecordOneExchange dbTwoUsers handleSessA "ex-1" exchLater).1
    handleSessA "ex-2" exchEarlier).1

/-- Witness for C5: after recording timestamps 2 then 1, the listing is
sorted and the first exchange is the one with timestamp 1. -/
theorem exchanges_sorted_witness :
    ∃ l, (sqlChatSessionHandle.Exchanges dbOutOfOrder handleSessA).2.2 = .ok l ∧
      l.Sorted (fun a b => a.RequestTimestamp ≤ b.RequestTimestamp) ∧
      ∃ e, (sqlChatSessionHandle.FirstExchange dbOutOfOrder handleSessA).2.2 = .ok e ∧
        e = exchEarlier := by
  obtain ⟨l, hl, hsort, -, -, hne2⟩ :=
    exchanges_sorted_by_request_timestamp dbOutOfOrder handleSessA
  obtain ⟨e, he, -, -⟩ := hne2 (by decide)
  have hval : (sqlChatSessionHandle.FirstExchange dbOutOfOrder handleSessA).2.2
      = .ok exchEarlier := rfl
  rw [hval] at he
  have heq : exchEarlier = e := by injection he
  exact ⟨l, hl, hsort, e, hval.trans (by rw [heq]), heq.symm⟩

/-- C6: through a chat store scoped to one user, GetSession with an id that
no session of that user carries (in particular the id of a session owned by a
different user) returns the record-not-found error, the very same result as
for an id with no session row at all, and ListSessions never lists a handle
with that id. -/
theorem crossUser_sessions_hidden (db : Database) (u : sqlUserHandle) (sid : String)
    (hne : u.entry.ID ≠ "") (hsid : sid ≠ "")
    (hnot : ∀ s ∈ db.chat_sessions, s.ID = sid → s.UserID ≠ u.entry.ID) :
    (GetSession db u sid).2 = .error .errRecordNotFound ∧
    (∀ sid2, sid2 ≠ "" → (∀ s ∈ db.chat_sessions, s.ID ≠ sid2) →
      GetSession db u sid = GetSession db u sid2) ∧
    (∀ l, (ListSessions db u).2 = .ok l → ∀ x ∈ l, x.entry.ID ≠ sid) := by
  have hbu : (u.entry.ID == "") = false := beq_eq_false_iff_ne.mpr hne
  have hbs : (sid == "") = false := beq_eq_false_iff_ne.mpr hsid
  have hnone : db.chat_sessions.find? (fun s =>
      strFieldMatches u.entry.ID s.UserID && strFieldMatches sid s.ID) = none := by
    rw [List.find?_eq_none]
    intro s hsmem hcond
    simp only [strFieldMatches, hbu, hbs, Bool.false_or, Bool.and_eq_true] at hcond
    exact hnot s hsmem (beq_iff_eq.mp hcond.2) (beq_iff_eq.mp hcond.1)
  refine ⟨?_, ?_, ?_⟩
  · simp only [GetSession, hnone]
  · intro sid2 hsid2 hno2
    have hbs2 : (sid2 == "") = false := beq_eq_false_iff_ne.mpr hsid2
    have hnone2 : db.chat_sessions.find? (fun s =>
        strFieldMatches u.entry.ID s.UserID && strFieldMatches sid2 s.ID) = none := by
      rw [List.find?_eq_none]
      intro s hsmem hcond
      simp only [strFieldMatches, hbu, hbs2, Bool.false_or, Bool.and_eq_true] at hcond
      exact hno2 s hsmem (beq_iff_eq.mp hcond.2)
    simp only [GetSession, hnone, hnone2]
  · intro l hl x hx hxid
    have hl2 : ((db.chat_sessions.filter
        (fun s => strFieldMatches u.entry.ID s.UserID)).map
        (fun e => ({ entry := e } : sqlChatSessionHandle))) = l := by
      simpa [ListSessions] using hl
    rw [← hl2] at hx
    obtain ⟨e, hemem, hex⟩ := List.mem_map.mp hx
    obtain ⟨hein, hecond⟩ := List.mem_filter.mp hemem
    have heid : e.ID = sid := by
      rw [← hex] at hxid
      exact hxid
    simp only [strFieldMatches, hbu, Bool.false_or] at hecond
    exact hnot e hein heid (beq_iff_eq.mp hecond)

/-- Witness for C6: through the first sample user store, the id of the second
user session is not found, indistinguishably from an unknown id, and is never
listed. -/
theorem crossUser_sessions_hidden_witness :
    (GetSession dbTwoUsers handleUserA "sess-b").2 = .error .errRecordNotFound ∧
    GetSession dbTwoUsers handleUserA "sess-b" = GetSession dbTwoUsers handleUserA "sess-x" ∧
    (∀ l, (ListSessions dbTwoUsers handleUserA).2 = .ok l → ∀ x ∈ l, x.entry.ID ≠ "sess-b") := by
  have h := crossUser_sessions_hidden dbTwoUsers handleUserA "sess-b" (by decide) (by decide)
    (by decide)
  exact ⟨h.1, h.2.1 "sess-x" (by decide) (by decide), h.2.2⟩

/-- User row owned by the second user whose active pointer targets the
session of the first user (a state reachable through SetActiveSessionID). -/
def userBPointingAtA : sqlUserEntry :=
  { ID := "user-b", Name := "bob", APIToken := "", ActiveSessionID := some "sess-a" }

/-- Database where the second user points at a session of the first user. -/
def dbPointerAcross : Database :=
  { users := [userARow, userBPointingAtA], chat_sessions := [sessARow],
    chat_session_exchanges := [] }

/-- Counterexample for C7: deleting the first user also modifies the second
user row, whose active-session pointer is cleared by ON DELETE SET NULL when
it targeted a session of the deleted user. -/
theorem deleteUser_modifies_other_user_row :
    (DeleteUser dbPointerAcross "user-a").2 = .ok () ∧
    userBPointingAtA ∈ dbPointerAcross.users ∧ userBPointingAtA.ID ≠ "user-a" ∧
    userBPointingAtA ∉ (DeleteUser dbPointerAcross "user-a").1.users :=
  ⟨rfl, by decide, by decide, by decide⟩

/-- C7 amended: DeleteUser of an existing user id removes that user row, all
sessions owned by it and all exchanges of those sessions; the sessions and
exchanges of every other user are untouched, and every other user row is
unchanged except that an active-session pointer at one of the deleted
sessions is cleared to null. -/
theorem deleteUser_cascades (db : Database) (userID : String)
    (hne : userID ≠ "") (hex : ∃ r ∈ db.users, r.ID = userID) :
    DeleteUser db userID =
      ({ users := (db.users.filter (fun r => !(r.ID == userID))).map
           (clearDeletedActive ((db.chat_sessions.filter (fun s => s.UserID == userID)).map
             (fun s => s.ID))),
         chat_sessions := db.chat_sessions.filter (fun s => !(s.UserID == userID)),
         chat_session_exchanges := db.chat_session_exchanges.filter
           (fun e => !(((db.chat_sessions.filter (fun s => s.UserID == userID)).map
             (fun s => s.ID)).contains e.SessionID)) }, .ok ()) := by
  have hbne : (userID == "") = false := beq_eq_false_iff_ne.mpr hne
  obtain ⟨r, hrmem, hrid⟩ := hex
  have hany : db.users.any (fun x => x.ID == userID) = true :=
    List.any_eq_true.mpr ⟨r, hrmem, beq_iff_eq.mpr hrid⟩
  simp only [DeleteUser, hbne, Bool.false_eq_true, if_false, hany, if_true]

/-- Witness for the amended C7: on the cross-pointer database, deleting the
first user removes its session and clears the second user pointer. -/
theorem deleteUser_cascades_witness :
    DeleteUser dbPointerAcross "user-a"
      = ({ users := [userBRow], chat_sessions := [], chat_session_exchanges := [] },
         .ok ()) := by
  rw [deleteUser_cascades dbPointerAcross "user-a" (by decide) (by decide)]
  rfl

/-- C8: RecordNewUser with a name some stored user already carries fails with
the unique-constraint conflict and leaves the database unchanged. -/
theorem recordNewUser_duplicate_name_conflict (db : Database) (freshID userName : String)
    (hdup : ∃ r ∈ db.users, r.Name = userName) :
    RecordNewUser db freshID userName = (db, .error .errUniqueConstraint) := by
  obtain ⟨r, hrmem, hrname⟩ := hdup
  have hname : db.users.any (fun x => x.Name == userName) = true :=
    List.any_eq_true.mpr ⟨r, hrmem, beq_iff_eq.mpr hrname⟩
  unfold RecordNewUser
  cases hid : db.users.any (fun x => x.ID == freshID) with
  | true => rfl
  | false =>
    simp only [Bool.false_eq_true, if_false, hname, if_true]

/-- Empty sample database. -/
def dbEmpty : Database := { users := [], chat_sessions := [], chat_session_exchanges := [] }

/-- Witness for C8: registering the same name twice makes the second call
fail with the conflict error while the stored users stay as they were. -/
theorem recordNewUser_duplicate_witness :
    RecordNewUser (RecordNewUser dbEmpty "id-1" "alice").1 "id-2" "alice"
      = ((RecordNewUser dbEmpty "id-1" "alice").1, .error .errUniqueConstraint) :=
  recordNewUser_duplicate_name_conflict (RecordNewUser dbEmpty "id-1" "alice").1 "id-2" "alice"
    (by decide)

/-- C9: RecordOneExchange validates nothing: for every exchange value,
including one with empty texts and zero timestamps, it succeeds whenever the
session row exists and the generated id is fresh, appending exactly one row
that stores the caller-supplied fields unmodified and touching nothing else. -/
theorem recordOneExchange_no_validation (db : Database) (h : sqlChatSessionHandle)
    (freshID : String) (exchange : ChatExchange)
    (hfresh : ∀ e ∈ db.chat_session_exchanges, e.ID ≠ freshID)
    (hsess : ∃ s ∈ db.chat_sessions, s.ID = h.entry.ID) :
    sqlChatSessionHandle.RecordOneExchange db h freshID exchange =
      ({ db with chat_session_exchanges := db.chat_session_exchanges ++
          [{ ID := freshID, SessionID := h.entry.ID, Request := exchange.Request,
             RequestTimestamp := exchange.RequestTimestamp, Response := exchange.Response,
             ResponseTimestamp := exchange.ResponseTimestamp }] }, h, .ok ()) := by
  have hany1 : db.chat_session_exchanges.any (fun e => e.ID == freshID) = false := by
    rw [Bool.eq_false_iff]
    intro hx
    obtain ⟨e, hemem, he⟩ := List.any_eq_true.mp hx
    exact hfresh e hemem (beq_iff_eq.mp he)
  obtain ⟨s, hsmem, hsid⟩ := hsess
  have hany2 : db.chat_sessions.any (fun x => x.ID == h.entry.ID) = true :=
    List.any_eq_true.mpr ⟨s, hsmem, beq_iff_eq.mpr hsid⟩
  simp only [sqlChatSessionHandle.RecordOneExchange, hany1, hany2, Bool.not_true,
    Bool.false_eq_true, if_false]

/-- Exchange whose texts are empty strings and whose timestamps are the zero
time. -/
def emptyExchange : ChatExchange :=
  { RequestTimestamp := 0, Request := "", ResponseTimestamp := 0, Response := "" }

/-- Row stored for the all-empty exchange in the first sample session. -/
def emptyExchangeRow : sqlChatExchangeEntry :=
  { ID := "ex-0", SessionID := "sess-a", Request := "", RequestTimestamp := 0,
    Response := "", ResponseTimestamp := 0 }

/-- Witness for C9: the all-empty exchange is accepted and stored verbatim. -/
theorem recordOneExchange_no_validation_witness :
    sqlChatSessionHandle.RecordOneExchange dbTwoUsers handleSessA "ex-0" emptyExchange =
      ({ dbTwoUsers with chat_session_exchanges := [emptyExchangeRow] },
       handleSessA, .ok ()) := by
  rw [recordOneExchange_no_validation dbTwoUsers handleSessA "ex-0" emptyExchange
    (by decide) (by decide)]
  rfl

/-- C10: every cached-field getter returns the cached value of its handle
with no error, reads nothing from the database and changes neither the
database nor any handle. -/
theorem cached_getters_pure (db : Database) (u : sqlUserHandle) (h : sqlChatSessionHandle) :
    sqlUserHandle.GetID db u = (db, u, .ok u.entry.ID) ∧
    sqlUserHandle.GetName db u = (db, u, .ok u.entry.Name) ∧
    sqlUserHandle.GetAPIToken db u = (db, u, .ok u.entry.APIToken) ∧
    sqlUserHandle.GetActiveSessionID db u = (db, u, .ok u.entry.ActiveSessionID) ∧
    sqlChatSessionHandle.SessionID db h = (db, h, .ok h.entry.ID) ∧
    sqlChatSessionHandle.SessionState db h = (db, h, .ok h.entry.State) ∧
    sqlChatSessionHandle.Settings db h = (db, h, .ok h.entry.CommonSettings) :=
  ⟨rfl, rfl, rfl, rfl, rfl, rfl, rfl⟩
